import Mathlib

/-!
Verification of the concurrent fetch-and-aggregate core of the
`async-tools-agent` example (`tools/async_tools.py`).

The Python code under study is `fetch_multiple_urls`, which fans out one
HTTP GET per URL via `asyncio.gather`, converts every per-target outcome
(success, timeout, or any other exception) into a fixed-shape dictionary,
and returns a batch report with counts.

Embedding choices:
* A Python dictionary literal is embedded as an association list
  `List (String × PyVal)`, so the exact key set and the explicit `None`
  values of the source's dict literals are part of the model.
* The injected HTTP capability (the `aiohttp` session plus the 10-second
  `ClientTimeout`) is a function `String → HttpResult`: for a given URL it
  either yields a response (status code and body text), raises
  `asyncio.TimeoutError`, or raises some other exception carrying its type
  name and message — exactly the three branches of `fetch_one`'s
  `try/except`.
* `asyncio.gather` is modelled by `gatherModel`: the scheduler finishes
  tasks in an arbitrary completion order (a list of indices), and the
  results are correlated back to input positions by index, which is how
  gather reports them.
-/

/-- A Python value as it appears in the dictionaries built by
`fetch_one` / `fetch_multiple_urls`: `None`, a string, a non-negative
integer, or a boolean. -/
inductive PyVal where
  | none
  | str (s : String)
  | int (n : Nat)
  | bool (b : Bool)
deriving DecidableEq, Repr

/-- Outcome of one attempted HTTP GET by the injected capability
(`session.get(url, timeout=ClientTimeout(total=10))` + `response.text()`):
a response with status code and body text, `asyncio.TimeoutError`, or any
other exception with its type name and message. -/
inductive HttpResult where
  | response (status : Nat) (body : String)
  | timeoutErr
  | exc (name : String) (msg : String)
deriving DecidableEq, Repr

/-- The fixed per-request timeout: `aiohttp.ClientTimeout(total=10)` in
`async_tools.py` line 46. -/
def perRequestTimeout : Nat := 10

/-- Dictionary lookup `d[k]` on the association-list embedding of a
Python dict. -/
def dictGet (d : List (String × PyVal)) (k : String) : Option PyVal :=
  (d.find? (fun p => p.1 == k)).map Prod.snd

/-- A dict field is "present" when it exists and is not Python `None`. -/
def isPresent (v : Option PyVal) : Bool :=
  match v with
  | some PyVal.none => false
  | some _ => true
  | Option.none => false

/-- Embedding of the inner helper `fetch_one` (`async_tools.py` lines
43–73).  The three `HttpResult` cases correspond to the `try` body, the
`except asyncio.TimeoutError` handler, and the `except Exception` handler;
each returns the source's dict literal verbatim. -/
def fetch_one (http : String → HttpResult) (url : String) :
    List (String × PyVal) :=
  match http url with
  | HttpResult.response status body =>
      [("url", PyVal.str url),
       ("status", PyVal.int status),
       ("success", PyVal.bool true),
       ("content_length", PyVal.int body.length),
       ("preview", PyVal.str
          (if body.length > 200 then body.take 200 ++ "..." else body)),
       ("error", PyVal.none)]
  | HttpResult.timeoutErr =>
      [("url", PyVal.str url),
       ("status", PyVal.none),
       ("success", PyVal.bool false),
       ("content_length", PyVal.int 0),
       ("preview", PyVal.none),
       ("error", PyVal.str "Request timed out after 10 seconds")]
  | HttpResult.exc name msg =>
      [("url", PyVal.str url),
       ("status", PyVal.none),
       ("success", PyVal.bool false),
       ("content_length", PyVal.int 0),
       ("preview", PyVal.none),
       ("error", PyVal.str (name ++ ": " ++ msg))]

/-- The batch report returned by `fetch_multiple_urls` (lines 86–92).
`total_time_seconds` is wall-clock time and is outside the functional
model. -/
structure BatchReport where
  results : List (List (String × PyVal))
  total_urls : Nat
  successful : Nat
  failed : Nat
deriving DecidableEq, Repr

/-- Truthiness test used by `sum(1 for r in results if r["success"])`:
the `success` field is always a genuine boolean in the source, so the
check is that the field is `True`. -/
def successFlag (r : List (String × PyVal)) : Bool :=
  dictGet r "success" == some (PyVal.bool true)

/-- Embedding of `fetch_multiple_urls` (lines 76–92) with the
deterministic semantics of `asyncio.gather` (results reported in input
order): one `fetch_one` per URL, then the counts. -/
def fetch_multiple_urls (http : String → HttpResult) (urls : List String) :
    BatchReport :=
  let results := urls.map (fetch_one http)
  let successful := results.countP successFlag
  { results := results
    total_urls := urls.length
    successful := successful
    failed := results.length - successful }

/-- Tasks finishing in an arbitrary completion order: `order` is the
sequence of task indices in the order the scheduler completed them, and
each completion carries its task's result tagged with its index. -/
def completeInOrder (tasks : List α) (order : List Nat) : List (Nat × α) :=
  order.filterMap (fun i => (tasks[i]?).map (fun t => (i, t)))

/-- `asyncio.gather`'s contract: whatever the completion order was, the
result list is rebuilt in input-index order (a slot is `none` only if the
scheduler never completed that task). -/
def gatherModel (tasks : List α) (order : List Nat) : List (Option α) :=
  (List.range tasks.length).map
    (fun i => ((completeInOrder tasks order).find? (fun p => p.1 == i)).map Prod.snd)

/-- Embedding of `fetch_multiple_urls` where the nondeterministic
completion order of `asyncio.gather` is explicit. -/
def fetch_multiple_urls_sched (http : String → HttpResult)
    (urls : List String) (order : List Nat) : List (Option (List (String × PyVal))) :=
  gatherModel (urls.map (fetch_one http)) order

/-- Embedding of the batch call over a possibly-absent argument: Python
raises `TypeError` at `for url in urls` (line 77) when `urls` is `None`,
before any fetch task is created; otherwise the call returns normally. -/
def fetch_multiple_urls_checked (http : String → HttpResult)
    (urls : Option (List String)) : Except String BatchReport :=
  match urls with
  | Option.none => Except.error "TypeError: NoneType object is not iterable"
  | Option.some us => Except.ok (fetch_multiple_urls http us)

example :
    fetch_one (fun _ => HttpResult.response 200 "hi") "u" =
      [("url", PyVal.str "u"), ("status", PyVal.int 200),
       ("success", PyVal.bool true), ("content_length", PyVal.int 2),
       ("preview", PyVal.str "hi"), ("error", PyVal.none)] := by
  decide

example :
    (fetch_multiple_urls (fun u => if u = "a" then HttpResult.response 200 "x"
        else HttpResult.timeoutErr) ["a", "b"]).successful = 1 := by
  decide

/-! ### Helper lemmas -/

theorem find_completeInOrder {α : Type} (tasks : List α) (order : List Nat)
    (i : Nat) (hmem : i ∈ order) (hi : i < tasks.length) :
    (completeInOrder tasks order).find? (fun p => p.1 == i) =
      (tasks[i]?).map (fun t => (i, t)) := by
  induction order with
  | nil => cases hmem
  | cons j rest ih =>
    by_cases hj : j = i
    · subst hj
      have ht : tasks[j]? = some (tasks[j]) := List.getElem?_eq_getElem hi
      simp [completeInOrder, List.filterMap_cons, ht, List.find?]
    · rcases List.mem_cons.mp hmem with h1 | h2
      · exact absurd h1.symm hj
      · cases htj : tasks[j]? with
        | none =>
          simpa [completeInOrder, List.filterMap_cons, htj] using ih h2
        | some t =>
          have hne : (j == i) = false := by simp [hj]
          simpa [completeInOrder, List.filterMap_cons, htj, List.find?, hne]
            using ih h2

theorem gatherModel_eq {α : Type} (tasks : List α) (order : List Nat)
    (hord : ∀ i, i < tasks.length → i ∈ order) :
    gatherModel tasks order = tasks.map Option.some := by
  unfold gatherModel
  apply List.ext_getElem
  · simp
  · intro i h1 h2
    simp only [List.getElem_map, List.getElem_range]
    rw [find_completeInOrder tasks order i (hord i (by simpa using h2)) (by simpa using h2)]
    simp [List.getElem?_eq_getElem]

theorem fetchOne_url (http : String → HttpResult) (url : String) :
    dictGet (fetch_one http url) "url" = some (PyVal.str url) := by
  cases h : http url <;> simp [fetch_one, h, dictGet, List.find?]

/-! ### Claim theorems -/

/-- C1: for every input list of targets and every completion order of the
underlying fetch operations that completes all of them, the results
sequence has exactly as many outcomes as there are targets, and the
outcome at position `i` is the fetch of target `i` (so `results[i].url`
equals `targets[i]`), regardless of the order in which the operations
completed. -/
theorem order_preservation (http : String → HttpResult) (urls : List String)
    (order : List Nat) (hord : ∀ i, i < urls.length → i ∈ order)
    (i : Nat) (hi : i < urls.length) :
    (fetch_multiple_urls_sched http urls order).length = urls.length ∧
    (fetch_multiple_urls_sched http urls order)[i]? =
      some (some (fetch_one http urls[i])) ∧
    dictGet (fetch_one http urls[i]) "url" = some (PyVal.str urls[i]) := by
  have hgather :
      fetch_multiple_urls_sched http urls order =
        (urls.map (fetch_one http)).map Option.some := by
    apply gatherModel_eq
    intro j hj
    exact hord j (by simpa using hj)
  refine ⟨?_, ?_, fetchOne_url http urls[i]⟩
  · simp [hgather]
  · rw [hgather]
    simp [List.getElem?_eq_getElem, hi]

theorem order_preservation_witness :
    (fetch_multiple_urls_sched (fun _ => HttpResult.timeoutErr)
        ["a", "b"] [1, 0]).length = 2 ∧
    (fetch_multiple_urls_sched (fun _ => HttpResult.timeoutErr)
        ["a", "b"] [1, 0])[0]? =
      some (some (fetch_one (fun _ => HttpResult.timeoutErr) "a")) ∧
    dictGet (fetch_one (fun _ => HttpResult.timeoutErr) "a") "url" =
      some (PyVal.str "a") := by
  have h := order_preservation (fun _ => HttpResult.timeoutErr) ["a", "b"]
    [1, 0] (by decide) 0 (by decide)
  simpa using h

/-- C2: for every outcome `fetch_one` can produce, the preview field is
present (non-`None`) exactly when the success flag is true and the error
field is present exactly when it is false, so exactly one of
{preview present, error present} holds. -/
theorem preview_error_mutex (http : String → HttpResult) (url : String) :
    isPresent (dictGet (fetch_one http url) "preview") ≠
      isPresent (dictGet (fetch_one http url) "error") ∧
    isPresent (dictGet (fetch_one http url) "preview") =
      successFlag (fetch_one http url) ∧
    isPresent (dictGet (fetch_one http url) "error") =
      !(successFlag (fetch_one http url)) := by
  cases h : http url <;>
    simp [fetch_one, h, dictGet, successFlag, isPresent, List.find?]

/-- C3: in every batch report, `successful + failed = total_urls =
results.length`, `successful` counts exactly the outcomes whose success
flag is true, and `failed` counts exactly the rest. -/
theorem count_partition (http : String → HttpResult) (urls : List String) :
    (fetch_multiple_urls http urls).successful +
        (fetch_multiple_urls http urls).failed =
      (fetch_multiple_urls http urls).total_urls ∧
    (fetch_multiple_urls http urls).total_urls =
      (fetch_multiple_urls http urls).results.length ∧
    (fetch_multiple_urls http urls).successful =
      (fetch_multiple_urls http urls).results.countP successFlag ∧
    (fetch_multiple_urls http urls).failed =
      (fetch_multiple_urls http urls).results.countP
        (fun r => !(successFlag r)) := by
  set rs := urls.map (fetch_one http) with hrs
  have hlen : rs.length = urls.length := by simp [hrs]
  have hle : rs.countP successFlag ≤ rs.length :=
    List.countP_le_length successFlag
  have hsplit : rs.length = rs.countP successFlag +
      rs.countP (fun r => !(successFlag r)) := by
    simpa using List.length_eq_countP_add_countP (p := successFlag) rs
  refine ⟨?_, ?_, ?_, ?_⟩
  · simp only [fetch_multiple_urls, ← hrs, hlen.symm]
    omega
  · simp [fetch_multiple_urls, ← hrs, hlen]
  · simp [fetch_multiple_urls, ← hrs]
  · simp only [fetch_multiple_urls, ← hrs]
    omega

/-- C4: when the fetch of a target hits `asyncio.TimeoutError` (the fetch
exceeded the fixed 10-second `perRequestTimeout`, applied identically to
every target), the outcome has success false, status `None`,
content_length 0, preview `None`, and a fixed error string naming the
timeout duration. -/
theorem timeout_outcome (http : String → HttpResult) (url : String)
    (h : http url = HttpResult.timeoutErr) :
    successFlag (fetch_one http url) = false ∧
    dictGet (fetch_one http url) "status" = some PyVal.none ∧
    dictGet (fetch_one http url) "content_length" = some (PyVal.int 0) ∧
    dictGet (fetch_one http url) "preview" = some PyVal.none ∧
    dictGet (fetch_one http url) "error" =
      some (PyVal.str
        ("Request timed out after " ++ toString perRequestTimeout
          ++ " seconds")) := by
  simp [fetch_one, h, dictGet, successFlag, List.find?]
  rfl

theorem timeout_outcome_witness :
    successFlag (fetch_one (fun _ => HttpResult.timeoutErr) "u") = false ∧
    dictGet (fetch_one (fun _ => HttpResult.timeoutErr) "u") "status" =
      some PyVal.none ∧
    dictGet (fetch_one (fun _ => HttpResult.timeoutErr) "u")
        "content_length" = some (PyVal.int 0) ∧
    dictGet (fetch_one (fun _ => HttpResult.timeoutErr) "u") "preview" =
      some PyVal.none ∧
    dictGet (fetch_one (fun _ => HttpResult.timeoutErr) "u") "error" =
      some (PyVal.str
        ("Request timed out after " ++ toString perRequestTimeout
          ++ " seconds")) :=
  timeout_outcome (fun _ => HttpResult.timeoutErr) "u" rfl

/-- C5: when the fetch of a target raises any non-timeout exception, the
outcome has success false, status `None`, content_length 0, preview
`None`, and an error string formatted from the exception's type name and
message (`f"{type(e).__name__}: {str(e)}"`). -/
theorem failure_outcome (http : String → HttpResult) (url : String)
    (name msg : String) (h : http url = HttpResult.exc name msg) :
    successFlag (fetch_one http url) = false ∧
    dictGet (fetch_one http url) "status" = some PyVal.none ∧
    dictGet (fetch_one http url) "content_length" = some (PyVal.int 0) ∧
    dictGet (fetch_one http url) "preview" = some PyVal.none ∧
    dictGet (fetch_one http url) "error" =
      some (PyVal.str (name ++ ": " ++ msg)) := by
  simp [fetch_one, h, dictGet, successFlag, List.find?]

theorem failure_outcome_witness :
    successFlag (fetch_one
      (fun _ => HttpResult.exc "ClientConnectorError" "Connection refused")
      "u") = false ∧
    dictGet (fetch_one
      (fun _ => HttpResult.exc "ClientConnectorError" "Connection refused")
      "u") "status" = some PyVal.none ∧
    dictGet (fetch_one
      (fun _ => HttpResult.exc "ClientConnectorError" "Connection refused")
      "u") "content_length" = some (PyVal.int 0) ∧
    dictGet (fetch_one
      (fun _ => HttpResult.exc "ClientConnectorError" "Connection refused")
      "u") "preview" = some PyVal.none ∧
    dictGet (fetch_one
      (fun _ => HttpResult.exc "ClientConnectorError" "Connection refused")
      "u") "error" =
      some (PyVal.str ("ClientConnectorError" ++ ": " ++ "Connection refused")) :=
  failure_outcome _ "u" "ClientConnectorError" "Connection refused" rfl

/-- C6: when the HTTP capability returns any response within the timeout,
the outcome has success true, status equal to the response's status code
(any value, including non-2xx), and content_length equal to the length of
the full body — also when the body is longer than 200 characters and the
preview is therefore truncated. -/
theorem response_outcome (http : String → HttpResult) (url : String)
    (st : Nat) (body : String) (h : http url = HttpResult.response st body) :
    successFlag (fetch_one http url) = true ∧
    dictGet (fetch_one http url) "status" = some (PyVal.int st) ∧
    dictGet (fetch_one http url) "content_length" =
      some (PyVal.int body.length) := by
  simp [fetch_one, h, dictGet, successFlag, List.find?]

theorem response_outcome_witness :
    successFlag (fetch_one (fun _ => HttpResult.response 404
      (String.mk (List.replicate 201 'a'))) "u") = true ∧
    dictGet (fetch_one (fun _ => HttpResult.response 404
      (String.mk (List.replicate 201 'a'))) "u") "status" =
      some (PyVal.int 404) ∧
    dictGet (fetch_one (fun _ => HttpResult.response 404
      (String.mk (List.replicate 201 'a'))) "u") "content_length" =
      some (PyVal.int (String.mk (List.replicate 201 'a')).length) :=
  response_outcome _ "u" 404 (String.mk (List.replicate 201 'a')) rfl

/-- C7: for a successful fetch, the preview is the first 200 characters
of the body followed by the ellipsis marker `"..."` when the body is
longer than 200 characters, and the full body verbatim otherwise. -/
theorem preview_truncation (http : String → HttpResult) (url : String)
    (st : Nat) (body : String)
    (h : http url = HttpResult.response st body) :
    (body.length > 200 →
        dictGet (fetch_one http url) "preview" =
          some (PyVal.str (body.take 200 ++ "..."))) ∧
    (body.length ≤ 200 →
        dictGet (fetch_one http url) "preview" = some (PyVal.str body)) := by
  constructor
  · intro hlen
    simp [fetch_one, h, dictGet, List.find?, hlen]
  · intro hlen
    simp [fetch_one, h, dictGet, List.find?, Nat.not_lt.mpr hlen]

set_option maxRecDepth 4000 in
theorem preview_truncation_witness :
    dictGet (fetch_one (fun _ => HttpResult.response 200
        (String.mk (List.replicate 201 'a'))) "u") "preview" =
      some (PyVal.str ((String.mk (List.replicate 201 'a')).take 200
        ++ "...")) ∧
    dictGet (fetch_one (fun _ => HttpResult.response 200 "hi") "v")
        "preview" = some (PyVal.str "hi") := by
  have h1 := preview_truncation (fun _ => HttpResult.response 200
    (String.mk (List.replicate 201 'a'))) "u" 200
    (String.mk (List.replicate 201 'a')) rfl
  have h2 := preview_truncation (fun _ => HttpResult.response 200 "hi")
    "v" 200 "hi" rfl
  exact ⟨h1.1 (by decide), h2.2 (by decide)⟩

/-- C8: the batch call errors exactly on an invalid (absent) target list:
a `None` argument produces a batch-level `TypeError` that does not depend
on the injected HTTP capability (the failure occurs before any fetch is
dispatched), while every actual list of string targets — under every
possible per-target behaviour of the HTTP capability, failures included —
yields the complete report with per-target failures recorded as outcome
data, never a batch-level error. -/
theorem batch_error_iff_invalid (http http2 : String → HttpResult)
    (us : List String) :
    fetch_multiple_urls_checked http (Option.some us) =
      Except.ok (fetch_multiple_urls http us) ∧
    (fetch_multiple_urls_checked http Option.none).isOk = false ∧
    fetch_multiple_urls_checked http Option.none =
      fetch_multiple_urls_checked http2 Option.none :=
  ⟨rfl, rfl, rfl⟩

/-- C10: every outcome dictionary has exactly the six keys `url`,
`status`, `success`, `content_length`, `preview`, `error` (in the dict
literal's order), absent fields are the explicit value `None` rather than
a missing key (success implies `error = None`; failure implies
`status = None` and `preview = None`), and a successful fetch of an empty
body yields the preview `""`, which the presence test counts as
present. -/
theorem outcome_shape (http : String → HttpResult) (url : String)
    (st : Nat) :
    (fetch_one http url).map Prod.fst =
      ["url", "status", "success", "content_length", "preview", "error"] ∧
    (successFlag (fetch_one http url) = true →
        dictGet (fetch_one http url) "error" = some PyVal.none) ∧
    (successFlag (fetch_one http url) = false →
        dictGet (fetch_one http url) "status" = some PyVal.none ∧
        dictGet (fetch_one http url) "preview" = some PyVal.none) ∧
    (http url = HttpResult.response st "" →
        dictGet (fetch_one http url) "preview" = some (PyVal.str "") ∧
        isPresent (dictGet (fetch_one http url) "preview") = true) := by
  refine ⟨?_, ?_, ?_, ?_⟩
  · cases h : http url <;> simp [fetch_one, h]
  · intro hs
    cases h : http url <;>
      simp_all [fetch_one, h, dictGet, successFlag, List.find?]
  · intro hs
    cases h : http url <;>
      simp_all [fetch_one, h, dictGet, successFlag, List.find?]
  · intro h
    simp [fetch_one, h, dictGet, isPresent, List.find?]

theorem outcome_shape_witness :
    ((fetch_one (fun _ => HttpResult.response 204 "") "u").map Prod.fst =
      ["url", "status", "success", "content_length", "preview", "error"]) ∧
    dictGet (fetch_one (fun _ => HttpResult.response 204 "") "u") "error" =
      some PyVal.none ∧
    dictGet (fetch_one (fun _ => HttpResult.response 204 "") "u")
      "preview" = some (PyVal.str "") ∧
    isPresent (dictGet (fetch_one (fun _ => HttpResult.response 204 "") "u")
      "preview") = true := by
  have h := outcome_shape (fun _ => HttpResult.response 204 "") "u" 204
  exact ⟨h.1, h.2.1 (by decide), (h.2.2.2 rfl).1, (h.2.2.2 rfl).2⟩
